import Mathlib

/-!
Verification development for the Floss Pandora GATT server fixture
(`floss/pandora/floss/gatt_server.py`, class `FlossGattServer`).

The Python attribute database (a forest of services, characteristics and
descriptors), its read/write engine (`generic_read` / `generic_write`), the
permission table (`check_permissions`), and the request dispatchers
(`on_attr_read`, `on_attr_write`, `on_execute_write`) are embedded as
executable Lean functions.  Python exceptions (an `AttributeError` reachable
in `generic_write`, an `UnboundLocalError` reachable in `on_execute_write`)
are modelled with `Except String`.  Python list slice assignment
`l[a:b] = v`, including negative-index normalisation and clamping, is
modelled exactly by `pySetSlice`.
-/

namespace GattServer

/-- GATT status codes used by the fixture (`floss_enums.GattStatus`). -/
inductive GattStatus where
  | SUCCESS
  | INVALID_OFFSET
  | INVALID_ATTRLEN
  | NOT_FOUND
  | READ_NOT_PERMIT
  | WRITE_NOT_PERMIT
  | INSUF_AUTHORIZATION
  | INTERNAL_ERROR
  deriving DecidableEq, Repr

/-- A descriptor node (`bluetooth_gatt_service.Descriptor`): handle
(`instance_id`), UUID string, byte value. -/
structure GattDescriptor where
  instance_id : Int
  uuid : String
  value : List Nat
  deriving DecidableEq, Repr

/-- A characteristic node (`bluetooth_gatt_service.Characteristic`) with its
owned descriptors. -/
structure GattCharacteristic where
  instance_id : Int
  uuid : String
  value : List Nat
  descriptors : List GattDescriptor
  deriving DecidableEq, Repr

/-- A service node (`bluetooth_gatt_service.Service`) with its owned
characteristics. -/
structure GattService where
  instance_id : Int
  uuid : String
  value : List Nat
  characteristics : List GattCharacteristic
  deriving DecidableEq, Repr

/-- A prepared-write queue entry: the tuple
`(addr, trans_id, offset, length, is_prep, need_rsp, handle, value)` appended
to `self.write_requests` by `on_attr_write`. -/
structure WriteRequest where
  addr : String
  trans_id : Int
  offset : Int
  length : Int
  is_prep : Bool
  need_rsp : Bool
  handle : Int
  value : List Nat
  deriving DecidableEq, Repr

/-- The mutable server state the claims touch: the attribute forest
`self.gatt_services` and the prepared-write queue `self.write_requests`. -/
structure ServerState where
  gatt_services : List GattService
  write_requests : List WriteRequest
  deriving DecidableEq, Repr

/-- An outbound `SendResponse(server_id, addr, trans_id, status, offset,
value)` call (the constant `server_id` argument is omitted). -/
structure Response where
  addr : String
  trans_id : Int
  status : GattStatus
  offset : Int
  value : List Nat
  deriving DecidableEq, Repr

/-- The common projection of the three node kinds: what
`get_attribute_from_handle` callers use (`instance_id`, `uuid`, `value`). -/
structure GattAttribute where
  instance_id : Int
  uuid : String
  value : List Nat
  deriving DecidableEq, Repr

def attrOfDesc (d : GattDescriptor) : GattAttribute :=
  ⟨d.instance_id, d.uuid, d.value⟩

def attrOfChar (c : GattCharacteristic) : GattAttribute :=
  ⟨c.instance_id, c.uuid, c.value⟩

def attrOfService (s : GattService) : GattAttribute :=
  ⟨s.instance_id, s.uuid, s.value⟩

/-- The depth-first visit order of the nested loops in
`get_attribute_from_handle` / `update_attribute_value`: each characteristic
followed by its descriptors. -/
def charAttrs (c : GattCharacteristic) : List GattAttribute :=
  attrOfChar c :: c.descriptors.map attrOfDesc

def charsAttrs : List GattCharacteristic → List GattAttribute
  | [] => []
  | c :: rest => charAttrs c ++ charsAttrs rest

/-- Each service followed by its characteristics and their descriptors. -/
def servicesAttrs : List GattService → List GattAttribute
  | [] => []
  | s :: rest => (attrOfService s :: charsAttrs s.characteristics) ++ servicesAttrs rest

def allAttrs (st : ServerState) : List GattAttribute :=
  servicesAttrs st.gatt_services

/-- `get_attribute_from_handle`: the nested
service → characteristic → descriptor scan, returning the first node whose
`instance_id` equals the handle; expressed as `find?` over the depth-first
flattening, which visits nodes in exactly the order of the Python loops. -/
def get_attribute_from_handle (st : ServerState) (handle : Int) : Option GattAttribute :=
  (allAttrs st).find? (fun a => a.instance_id == handle)

/-- `get_attribute_value_from_handle`: empty list when the handle is absent. -/
def get_attribute_value_from_handle (st : ServerState) (handle : Int) : List Nat :=
  match get_attribute_from_handle st handle with
  | none => []
  | some a => a.value

/-- `get_uuid_from_handle`: empty string when the handle is absent. -/
def get_uuid_from_handle (st : ServerState) (handle : Int) : String :=
  match get_attribute_from_handle st handle with
  | none => ""
  | some a => a.uuid

/-! UUID constants of the PTS fixture.  In the source each is
`uuid16_to_uuid128('xxxx').upper()`.  The helper `utils.uuid16_to_uuid128`
lives in a module outside the provided sources; the expansion below is
modelled from the spec: a 16-bit UUID expands over the Bluetooth base UUID to
a canonical uppercase hyphenated 128-bit string.  Only distinctness of the
constants matters to the claims. -/

def LONG_CHAR_UUID : String := "0000B000-0000-1000-8000-00805F9B34FB"
def DESCRIPTOR_UUID : String := "0000B001-0000-1000-8000-00805F9B34FB"
def KEY_SIZE_CHAR_UUID : String := "0000B002-0000-1000-8000-00805F9B34FB"
def UNAUTHORIZED_CHAR_UUID : String := "0000B003-0000-1000-8000-00805F9B34FB"
def AUTHENTICATION_CHAR_UUID : String := "0000B004-0000-1000-8000-00805F9B34FB"
def INVALID_FOR_LE_UUID : String := "0000B005-0000-1000-8000-00805F9B34FB"
def INVALID_FOR_BR_EDR_UUID : String := "0000B006-0000-1000-8000-00805F9B34FB"
def NO_READ_CHAR_UUID : String := "0000B007-0000-1000-8000-00805F9B34FB"
def NO_WRITE_CHAR_UUID : String := "0000B008-0000-1000-8000-00805F9B34FB"
def SHORT_CHAR_UUID : String := "0000B009-0000-1000-8000-00805F9B34FB"
def WRITE_NO_RESPONSE_CHAR_UUID : String := "0000B00A-0000-1000-8000-00805F9B34FB"
def NOTIFY_CHAR_UUID : String := "0000B00B-0000-1000-8000-00805F9B34FB"
def AUTHENTICATE_SHORT_CHAR_UUID : String := "0000B00C-0000-1000-8000-00805F9B34FB"
def CCC_DESCRIPTOR_UUID : String := "00002902-0000-1000-8000-00805F9B34FB"
def LONG_CHAR_512_UUID : String := "0000B00D-0000-1000-8000-00805F9B34FB"
def MITM_SHORT_CHAR_UUID : String := "0000B00E-0000-1000-8000-00805F9B34FB"

/-- `check_permissions(uuid)`: the `elif` chain keyed on the fixture UUIDs.
`None` (here `none`) and any unrecognised UUID map to `NOT_FOUND`; the
branches that only log fall through to the final `return SUCCESS`. -/
def check_permissions : Option String → GattStatus
  | none => .NOT_FOUND
  | some uuid =>
    if uuid = LONG_CHAR_UUID then .SUCCESS
    else if uuid = DESCRIPTOR_UUID then .SUCCESS
    else if uuid = UNAUTHORIZED_CHAR_UUID then .INSUF_AUTHORIZATION
    else if uuid = AUTHENTICATION_CHAR_UUID then .SUCCESS
    else if uuid = INVALID_FOR_LE_UUID then .INTERNAL_ERROR
    else if uuid = INVALID_FOR_BR_EDR_UUID then .INTERNAL_ERROR
    else if uuid = NO_READ_CHAR_UUID then .READ_NOT_PERMIT
    else if uuid = NO_WRITE_CHAR_UUID then .WRITE_NOT_PERMIT
    else if uuid = SHORT_CHAR_UUID then .SUCCESS
    else if uuid = WRITE_NO_RESPONSE_CHAR_UUID then .SUCCESS
    else if uuid = AUTHENTICATE_SHORT_CHAR_UUID then .SUCCESS
    else if uuid = CCC_DESCRIPTOR_UUID then .SUCCESS
    else if uuid = LONG_CHAR_512_UUID then .SUCCESS
    else if uuid = MITM_SHORT_CHAR_UUID then .SUCCESS
    else .NOT_FOUND

/-- The UUIDs the `check_permissions` chain recognises, in branch order. -/
def knownPermissionUUIDs : List String :=
  [LONG_CHAR_UUID, DESCRIPTOR_UUID, UNAUTHORIZED_CHAR_UUID, AUTHENTICATION_CHAR_UUID,
   INVALID_FOR_LE_UUID, INVALID_FOR_BR_EDR_UUID, NO_READ_CHAR_UUID, NO_WRITE_CHAR_UUID,
   SHORT_CHAR_UUID, WRITE_NO_RESPONSE_CHAR_UUID, AUTHENTICATE_SHORT_CHAR_UUID,
   CCC_DESCRIPTOR_UUID, LONG_CHAR_512_UUID, MITM_SHORT_CHAR_UUID]

/-! Python list slice assignment.  `l[a:b] = v` (no step) normalises the two
bounds — a negative index counts from the end and is clamped to 0, a
non-negative one is clamped to `len(l)`, and a stop bound below the start is
raised to the start — then replaces the selected span by `v`. -/

/-- Normalise one slice bound the way CPython does for a list of length
`len`. -/
def pyNormIdx (len : Nat) (i : Int) : Nat :=
  if i < 0 then ((len : Int) + i).toNat else min i.toNat len

/-- `l[a:b] = v`: replace the normalised span `[a, b)` of `l` by `v`. -/
def pySetSlice (l : List Nat) (a b : Int) (v : List Nat) : List Nat :=
  let a2 := pyNormIdx l.length a
  let b2 := max a2 (pyNormIdx l.length b)
  l.take a2 ++ v ++ l.drop b2

/-! First-match value update over the forest.  `updFirstServices p v` walks
services, characteristics and descriptors in the visit order of the Python
loops and replaces the `value` of the first node whose attribute projection
satisfies `p`, reporting in its second component whether a node was found.
`update_attribute_value` instantiates it with a UUID test; the in-place
mutation `attr_value[offset:(offset + length)] = value` in `generic_write`
(which writes through the alias `attribute.value` of the node found by
handle) instantiates it with a handle test. -/

def updFirstDescs (p : GattAttribute → Bool) (v : List Nat) :
    List GattDescriptor → List GattDescriptor × Bool
  | [] => ([], false)
  | d :: rest =>
    if p (attrOfDesc d) then ({ d with value := v } :: rest, true)
    else
      let r := updFirstDescs p v rest
      (d :: r.1, r.2)

def updFirstChars (p : GattAttribute → Bool) (v : List Nat) :
    List GattCharacteristic → List GattCharacteristic × Bool
  | [] => ([], false)
  | c :: rest =>
    if p (attrOfChar c) then ({ c with value := v } :: rest, true)
    else
      let rd := updFirstDescs p v c.descriptors
      if rd.2 then ({ c with descriptors := rd.1 } :: rest, true)
      else
        let rc := updFirstChars p v rest
        (c :: rc.1, rc.2)

def updFirstServices (p : GattAttribute → Bool) (v : List Nat) :
    List GattService → List GattService × Bool
  | [] => ([], false)
  | s :: rest =>
    if p (attrOfService s) then ({ s with value := v } :: rest, true)
    else
      let rc := updFirstChars p v s.characteristics
      if rc.2 then ({ s with characteristics := rc.1 } :: rest, true)
      else
        let rs := updFirstServices p v rest
        (s :: rs.1, rs.2)

/-- `update_attribute_value(uuid, value)`: replace the value of the first
node (in visit order) whose UUID matches; only log when none does. -/
def update_attribute_value (st : ServerState) (uuid : String) (v : List Nat) : ServerState :=
  { st with gatt_services := (updFirstServices (fun a => a.uuid == uuid) v st.gatt_services).1 }

/-- The store effect of the in-place splice in `generic_write`: the node
returned by `get_attribute_from_handle` (the first node matching the handle)
has its `value` list mutated through the alias `attr_value`. -/
def set_value_at_handle (st : ServerState) (handle : Int) (v : List Nat) : ServerState :=
  { st with gatt_services := (updFirstServices (fun a => a.instance_id == handle) v st.gatt_services).1 }

/-- `generic_write(offset, length, handle, value)`.  A missing attribute is
treated as the empty buffer for both bound checks; when both checks pass the
code splices into `attribute.value` in place and then calls
`update_attribute_value(attribute.uuid, ...)` — which dereferences
`attribute` and raises `AttributeError` when the handle was absent. -/
def generic_write (st : ServerState) (offset length : Int) (handle : Int)
    (value : List Nat) : Except String (GattStatus × List Nat × ServerState) :=
  let attr_node := get_attribute_from_handle st handle
  let attr_value := match attr_node with
    | some a => a.value
    | none => []
  if (attr_value.length : Int) < offset then .ok (.INVALID_OFFSET, [], st)
  else if offset + length > (attr_value.length : Int) then .ok (.INVALID_ATTRLEN, [], st)
  else
    match attr_node with
    | none => .error "AttributeError: NoneType object has no uuid"
    | some attr =>
      let new_value := pySetSlice attr_value offset (offset + length) value
      let st1 := set_value_at_handle st handle new_value
      let st2 := update_attribute_value st1 attr.uuid new_value
      .ok (.SUCCESS, new_value, st2)

/-- `generic_read(offset, handle)`: resolve the value (empty when the handle
is absent); reject a negative offset or one past the end; otherwise return
the tail slice `attr_value[offset:]`. -/
def generic_read (st : ServerState) (offset : Int) (handle : Int) :
    GattStatus × List Nat :=
  let attr_value := get_attribute_value_from_handle st handle
  if offset < 0 ∨ (attr_value.length : Int) < offset then (.INVALID_OFFSET, [])
  else (.SUCCESS, attr_value.drop offset.toNat)

/-- `on_attr_read(addr, trans_id, offset, is_long, handle)`: resolve the
UUID, check permissions; on success force `offset = 0` unless `is_long`,
then run `generic_read`; always call `SendResponse` with the (possibly
forced) offset and with `value = []` on permission failure. -/
def on_attr_read (st : ServerState) (addr : String) (trans_id : Int)
    (offset : Int) (is_long : Bool) (handle : Int) : ServerState × List Response :=
  let uuid := get_uuid_from_handle st handle
  let status := check_permissions (some uuid)
  if status = .SUCCESS then
    let offset2 := if is_long then offset else 0
    let r := generic_read st offset2 handle
    (st, [⟨addr, trans_id, r.1, offset2, r.2⟩])
  else
    (st, [⟨addr, trans_id, status, offset, []⟩])

/-- `on_attr_write(addr, trans_id, offset, length, is_prep, need_rsp, handle,
value)`: resolve the UUID, check permissions; on success either append the
tuple to `write_requests` (`is_prep`) or run `generic_write`; on permission
failure clear `value`; call `SendResponse` only when `need_rsp`. -/
def on_attr_write (st : ServerState) (addr : String) (trans_id : Int)
    (offset length : Int) (is_prep need_rsp : Bool) (handle : Int)
    (value : List Nat) : Except String (ServerState × List Response) :=
  let uuid := get_uuid_from_handle st handle
  let status := check_permissions (some uuid)
  if status = .SUCCESS then
    if is_prep then
      let st2 := { st with write_requests :=
        st.write_requests ++ [⟨addr, trans_id, offset, length, is_prep, need_rsp, handle, value⟩] }
      .ok (st2, if need_rsp then [⟨addr, trans_id, status, offset, value⟩] else [])
    else
      match generic_write st offset length handle value with
      | .error e => .error e
      | .ok (status2, value2, st2) =>
        .ok (st2, if need_rsp then [⟨addr, trans_id, status2, offset, value2⟩] else [])
  else
    .ok (st, if need_rsp then [⟨addr, trans_id, status, offset, []⟩] else [])

/-- The commit loop of `on_execute_write`: apply each drained entry through
`generic_write`, `break` on the first non-`SUCCESS` status.  The `Option`
accumulator is the Python local `status`, unbound (`none`) until the first
iteration assigns it. -/
def execLoop (st : ServerState) :
    List WriteRequest → Option GattStatus → Except String (Option GattStatus × ServerState)
  | [], status => .ok (status, st)
  | r :: rest, _ =>
    match generic_write st r.offset r.length r.handle r.value with
    | .error e => .error e
    | .ok (status, _, st2) =>
      if status = .SUCCESS then execLoop st2 rest (some status)
      else .ok (some status, st2)

/-- `on_execute_write(addr, trans_id, exec_write)`: on cancel clear the queue
and respond `SUCCESS`; on commit swap the queue out, drain it through
`generic_write` stopping at the first failure, then call
`SendResponse(..., status, 0, [])`.  When the drained queue was empty the
local `status` was never assigned and the `SendResponse` line raises
`UnboundLocalError`. -/
def on_execute_write (st : ServerState) (addr : String) (trans_id : Int)
    (exec_write : Bool) : Except String (ServerState × List Response) :=
  if !exec_write then
    .ok ({ st with write_requests := [] }, [⟨addr, trans_id, .SUCCESS, 0, []⟩])
  else
    let reqs := st.write_requests
    let st0 := { st with write_requests := [] }
    match execLoop st0 reqs none with
    | .error e => .error e
    | .ok (none, _) => .error "UnboundLocalError: local variable status referenced before assignment"
    | .ok (some status, st2) => .ok (st2, [⟨addr, trans_id, status, 0, []⟩])

/-- Reference drain, following the spec: apply each queued entry through the
Write Engine in FIFO order, stop at the first entry whose write fails and
return that failure status (already-applied entries are not rolled back);
when every entry succeeds return `SUCCESS`.  The spec never drains an entry
for an absent handle (entries are queued only after a successful permission
check), so the engine-exception case is given an arbitrary default. -/
def commitQueue (st : ServerState) : List WriteRequest → GattStatus × ServerState
  | [] => (.SUCCESS, st)
  | r :: rest =>
    match generic_write st r.offset r.length r.handle r.value with
    | .error _ => (.INTERNAL_ERROR, st)
    | .ok (status, _, st2) =>
      if status = .SUCCESS then commitQueue st2 rest
      else (status, st2)

/-! Lemma layer.  The nested first-match updater is related to a flat
first-match updater `setFirst` over the depth-first attribute flattening;
`find?` facts are then proved by plain list induction. -/

/-- Flat first-match value update: replace the `value` of the first element
satisfying `p`. -/
def setFirst (p : GattAttribute → Bool) (v : List Nat) : List GattAttribute → List GattAttribute
  | [] => []
  | a :: rest => if p a then { a with value := v } :: rest else a :: setFirst p v rest

theorem setFirst_of_any_eq_false (p : GattAttribute → Bool) (v : List Nat) :
    ∀ l : List GattAttribute, l.any p = false → setFirst p v l = l := by
  intro l h
  induction l with
  | nil => rfl
  | cons a rest ih =>
    simp only [List.any_cons, Bool.or_eq_false_iff] at h
    simp [setFirst, h.1, ih h.2]

theorem setFirst_append (p : GattAttribute → Bool) (v : List Nat)
    (xs ys : List GattAttribute) :
    setFirst p v (xs ++ ys) =
      if xs.any p then setFirst p v xs ++ ys else xs ++ setFirst p v ys := by
  induction xs with
  | nil => simp [setFirst]
  | cons a rest ih =>
    by_cases ha : p a
    · simp [setFirst, ha]
    · by_cases hr : rest.any p <;>
        simp [setFirst, ha, hr, ih]

theorem updFirstDescs_spec (p : GattAttribute → Bool) (v : List Nat) :
    ∀ ds : List GattDescriptor,
      (updFirstDescs p v ds).1.map attrOfDesc = setFirst p v (ds.map attrOfDesc) ∧
      (updFirstDescs p v ds).2 = (ds.map attrOfDesc).any p := by
  intro ds
  induction ds with
  | nil => simp [updFirstDescs, setFirst]
  | cons d rest ih =>
    by_cases hd : p ⟨d.instance_id, d.uuid, d.value⟩
    · simp [updFirstDescs, setFirst, attrOfDesc, hd]
    · simp [updFirstDescs, setFirst, attrOfDesc, hd, ih.1, ih.2]

theorem updFirstChars_spec (p : GattAttribute → Bool) (v : List Nat) :
    ∀ cs : List GattCharacteristic,
      charsAttrs (updFirstChars p v cs).1 = setFirst p v (charsAttrs cs) ∧
      (updFirstChars p v cs).2 = (charsAttrs cs).any p := by
  intro cs
  induction cs with
  | nil => simp [updFirstChars, charsAttrs, setFirst]
  | cons c rest ih =>
    have hd := updFirstDescs_spec p v c.descriptors
    by_cases hc : p ⟨c.instance_id, c.uuid, c.value⟩
    · simp [updFirstChars, charsAttrs, charAttrs, setFirst, attrOfChar, hc]
    · by_cases hfound : (updFirstDescs p v c.descriptors).2
      · have hany : (c.descriptors.map attrOfDesc).any p = true := hd.2 ▸ hfound
        simp [updFirstChars, charsAttrs, charAttrs, setFirst, attrOfChar, hc, hfound,
          hd.1, setFirst_append, hany, List.any_append]
      · have hany : (c.descriptors.map attrOfDesc).any p = false :=
          hd.2 ▸ Bool.of_not_eq_true hfound
        simp [updFirstChars, charsAttrs, charAttrs, setFirst, attrOfChar, hc, hfound,
          ih.1, ih.2, setFirst_append, hany, List.any_append]

theorem updFirstServices_spec (p : GattAttribute → Bool) (v : List Nat) :
    ∀ ss : List GattService,
      servicesAttrs (updFirstServices p v ss).1 = setFirst p v (servicesAttrs ss) ∧
      (updFirstServices p v ss).2 = (servicesAttrs ss).any p := by
  intro ss
  induction ss with
  | nil => simp [updFirstServices, servicesAttrs, setFirst]
  | cons s rest ih =>
    have hcs := updFirstChars_spec p v s.characteristics
    by_cases hs : p ⟨s.instance_id, s.uuid, s.value⟩
    · simp [updFirstServices, servicesAttrs, setFirst, attrOfService, hs]
    · by_cases hfound : (updFirstChars p v s.characteristics).2
      · have hany : (charsAttrs s.characteristics).any p = true := hcs.2 ▸ hfound
        simp [updFirstServices, servicesAttrs, setFirst, attrOfService, hs, hfound,
          hcs.1, setFirst_append, hany, List.any_append]
      · have hany : (charsAttrs s.characteristics).any p = false :=
          hcs.2 ▸ Bool.of_not_eq_true hfound
        simp [updFirstServices, servicesAttrs, setFirst, attrOfService, hs, hfound,
          ih.1, ih.2, setFirst_append, hany, List.any_append]

theorem allAttrs_update_attribute_value (st : ServerState) (u : String) (v : List Nat) :
    allAttrs (update_attribute_value st u v) =
      setFirst (fun a => a.uuid == u) v (allAttrs st) :=
  (updFirstServices_spec (fun a => a.uuid == u) v st.gatt_services).1

theorem allAttrs_set_value_at_handle (st : ServerState) (handle : Int) (v : List Nat) :
    allAttrs (set_value_at_handle st handle v) =
      setFirst (fun a => a.instance_id == handle) v (allAttrs st) :=
  (updFirstServices_spec (fun a => a.instance_id == handle) v st.gatt_services).1

/-- A value update never changes which element `find?` with a value-blind
predicate locates: only the located element's `value` may differ. -/
theorem find?_isSome_setFirst (p q : GattAttribute → Bool) (v : List Nat)
    (hq : ∀ a w, q ⟨a.instance_id, a.uuid, w⟩ = q a) :
    ∀ l : List GattAttribute,
      ((setFirst p v l).find? q).isSome = (l.find? q).isSome := by
  intro l
  induction l with
  | nil => rfl
  | cons a rest ih =>
    by_cases hp : p a
    · have hqa : q ⟨a.instance_id, a.uuid, v⟩ = q a := hq a v
      by_cases hqt : q a
      · simp [setFirst, hp, List.find?, hqa, hqt]
      · simp [setFirst, hp, List.find?, hqa, hqt]
    · by_cases hqt : q a
      · simp [setFirst, hp, List.find?, hqt]
      · simp [setFirst, hp, List.find?, hqt, ih]

/-- After replacing the first `p`-match's value by `v`, `find? p` still
succeeds and now returns `v`, for a value-blind `p`. -/
theorem find?_setFirst_self (p : GattAttribute → Bool) (v : List Nat)
    (hp : ∀ a w, p ⟨a.instance_id, a.uuid, w⟩ = p a) :
    ∀ l : List GattAttribute, (l.find? p).isSome →
      ((setFirst p v l).find? p).map (fun a => a.value) = some v := by
  intro l
  induction l with
  | nil => intro h; simp [List.find?] at h
  | cons a rest ih =>
    intro h
    by_cases hpa : p a
    · have : p ⟨a.instance_id, a.uuid, v⟩ = true := (hp a v).trans hpa
      simp [setFirst, hpa, List.find?, this]
    · have hrest : (rest.find? p).isSome := by
        simpa [List.find?_cons, hpa] using h
      simp [setFirst, hpa, List.find?, ih hrest]

/-- The composite store effect of a successful `generic_write` — first the
in-place update of the node found by handle, then the UUID-keyed update —
leaves the node found by that handle holding exactly the new value. -/
theorem find?_handle_after_write (hnd : Int) (u : String) (v : List Nat) :
    ∀ l : List GattAttribute,
      ((l.find? (fun a => a.instance_id == hnd)).isSome) →
      ((setFirst (fun a => a.uuid == u) v
          (setFirst (fun a => a.instance_id == hnd) v l)).find?
            (fun a => a.instance_id == hnd)).map (fun a => a.value) = some v := by
  intro l
  induction l with
  | nil => intro h; simp [List.find?] at h
  | cons a rest ih =>
    intro h
    by_cases ha : a.instance_id == hnd
    · by_cases hu : a.uuid == u
      · simp [setFirst, ha, hu, List.find?]
      · simp [setFirst, ha, hu, List.find?]
    · have hrest : (rest.find? (fun a => a.instance_id == hnd)).isSome := by
        simpa [List.find?_cons, ha] using h
      by_cases hu : a.uuid == u
      · simp only [setFirst, ha, Bool.false_eq_true, if_false, hu, if_true]
        have := find?_setFirst_self (fun a => a.instance_id == hnd) v
          (fun a w => rfl) rest hrest
        simpa [List.find?_cons, ha] using this
      · simp only [setFirst, ha, Bool.false_eq_true, if_false, hu]
        have := ih hrest
        simpa [List.find?_cons, ha] using this

theorem write_requests_update_attribute_value (st : ServerState) (u : String)
    (v : List Nat) : (update_attribute_value st u v).write_requests = st.write_requests :=
  rfl

theorem write_requests_set_value_at_handle (st : ServerState) (handle : Int)
    (v : List Nat) : (set_value_at_handle st handle v).write_requests = st.write_requests :=
  rfl

/-- A successful `generic_write` leaves the written handle resolving to
exactly the spliced value. -/
theorem get_value_after_generic_write (st : ServerState) (offset length : Int)
    (handle : Int) (value nv : List Nat) (st2 : ServerState)
    (h : generic_write st offset length handle value = .ok (.SUCCESS, nv, st2)) :
    get_attribute_value_from_handle st2 handle = nv := by
  unfold generic_write at h
  cases hfind : get_attribute_from_handle st handle with
  | none =>
    rw [hfind] at h
    simp only at h
    split at h
    · simp at h
    · split at h
      · simp at h
      · simp at h
  | some attr =>
    rw [hfind] at h
    simp only at h
    split at h
    · simp at h
    · split at h
      · simp at h
      · have hnv : pySetSlice attr.value offset (offset + length) value = nv :=
          congrArg (fun r => r.2.1) (Except.ok.inj h)
        have hst2 : update_attribute_value
            (set_value_at_handle st handle
              (pySetSlice attr.value offset (offset + length) value)) attr.uuid
              (pySetSlice attr.value offset (offset + length) value) = st2 :=
          congrArg (fun r => r.2.2) (Except.ok.inj h)
        have hsome : ((allAttrs st).find? (fun a => a.instance_id == handle)).isSome := by
          rw [show (allAttrs st).find? (fun a => a.instance_id == handle) =
            get_attribute_from_handle st handle from rfl, hfind]; rfl
        have hmain := find?_handle_after_write handle attr.uuid
          (pySetSlice attr.value offset (offset + length) value) (allAttrs st) hsome
        rw [← hst2, ← hnv]
        unfold get_attribute_value_from_handle get_attribute_from_handle
        rw [allAttrs_update_attribute_value, allAttrs_set_value_at_handle]
        cases hres : ((setFirst (fun a => a.uuid == attr.uuid)
            (pySetSlice attr.value offset (offset + length) value)
            (setFirst (fun a => a.instance_id == handle)
              (pySetSlice attr.value offset (offset + length) value)
              (allAttrs st))).find? (fun a => a.instance_id == handle)) with
        | none => rw [hres] at hmain; cases hmain
        | some b =>
          rw [hres] at hmain
          simpa using hmain

/-- Which handles resolve is invariant under any `generic_write` that
returns: value updates never add or remove nodes. -/
theorem isSome_get_attribute_generic_write (st : ServerState) (offset length : Int)
    (handle : Int) (value : List Nat) (s : GattStatus) (nv : List Nat)
    (st2 : ServerState)
    (h : generic_write st offset length handle value = .ok (s, nv, st2)) (h2 : Int) :
    (get_attribute_from_handle st2 h2).isSome = (get_attribute_from_handle st h2).isSome := by
  unfold generic_write at h
  cases hfind : get_attribute_from_handle st handle with
  | none =>
    rw [hfind] at h
    simp only at h
    split at h
    · injection h with h
      injection h with hs h
      injection h with hnv hst
      subst hst
      rfl
    · split at h
      · injection h with h
        injection h with hs h
        injection h with hnv hst
        subst hst
        rfl
      · simp at h
  | some attr =>
    rw [hfind] at h
    simp only at h
    split at h
    · injection h with h
      injection h with hs h
      injection h with hnv hst
      subst hst
      rfl
    · split at h
      · injection h with h
        injection h with hs h
        injection h with hnv hst
        subst hst
        rfl
      · injection h with h
        injection h with hs h
        injection h with hnv hst
        subst hst
        unfold get_attribute_from_handle
        rw [allAttrs_update_attribute_value, allAttrs_set_value_at_handle]
        rw [find?_isSome_setFirst (fun a => a.uuid == attr.uuid)
            (fun a => a.instance_id == h2) _ (fun a w => rfl),
          find?_isSome_setFirst (fun a => a.instance_id == handle)
            (fun a => a.instance_id == h2) _ (fun a w => rfl)]

/-- `generic_write` on a handle that resolves: the two bound checks against
the stored value, then the splice and the two store updates. -/
theorem generic_write_of_present (st : ServerState) (offset length : Int)
    (handle : Int) (value : List Nat) (attr : GattAttribute)
    (hfind : get_attribute_from_handle st handle = some attr) :
    generic_write st offset length handle value =
      if (attr.value.length : Int) < offset then .ok (.INVALID_OFFSET, [], st)
      else if offset + length > (attr.value.length : Int) then .ok (.INVALID_ATTRLEN, [], st)
      else .ok (.SUCCESS, pySetSlice attr.value offset (offset + length) value,
        update_attribute_value
          (set_value_at_handle st handle (pySetSlice attr.value offset (offset + length) value))
          attr.uuid (pySetSlice attr.value offset (offset + length) value)) := by
  unfold generic_write
  rw [hfind]

/-- The normalised form of the slice assignment when both bounds are already
in range: replace positions `[offset, offset+length)`. -/
theorem pySetSlice_of_bounds (l v : List Nat) (o len : Int) (ho : 0 ≤ o)
    (hlen : 0 ≤ len) (hub : o + len ≤ (l.length : Int)) :
    pySetSlice l o (o + len) v = l.take o.toNat ++ v ++ l.drop (o.toNat + len.toNat) := by
  have h1 : ¬o < 0 := by omega
  have h2 : ¬o + len < 0 := by omega
  have harg1 : pyNormIdx l.length o = o.toNat := by
    simp only [pyNormIdx, h1, if_false]
    omega
  have harg2 : max (pyNormIdx l.length o) (pyNormIdx l.length (o + len)) =
      o.toNat + len.toNat := by
    simp only [pyNormIdx, h1, h2, if_false]
    omega
  simp only [pySetSlice]
  rw [harg2, harg1]

theorem pySetSlice_length_of_bounds (l v : List Nat) (o len : Int) (ho : 0 ≤ o)
    (hlen : len = (v.length : Int)) (hub : o + len ≤ (l.length : Int)) :
    (pySetSlice l o (o + len) v).length = l.length := by
  rw [pySetSlice_of_bounds l v o len ho (by omega) hub]
  simp only [List.length_append, List.length_take, List.length_drop]
  omega

/-- Splicing the whole span `[0, len(l))` with a fresh value yields exactly
that value. -/
theorem pySetSlice_full (l v : List Nat) :
    pySetSlice l 0 (0 + (l.length : Int)) v = v := by
  rw [pySetSlice_of_bounds l v 0 (l.length : Int) (by omega) (by omega) (by omega)]
  simp

/-- On a nonempty queue whose every entry's handle resolves (the only queues
`on_attr_write` builds), the Python commit loop computes exactly the
spec-side drain `commitQueue`, and in particular assigns a final status. -/
theorem execLoop_eq_commitQueue :
    ∀ (reqs : List WriteRequest) (st : ServerState) (s0 : Option GattStatus),
      reqs ≠ [] →
      (∀ r ∈ reqs, (get_attribute_from_handle st r.handle).isSome) →
      execLoop st reqs s0 = .ok (some (commitQueue st reqs).1, (commitQueue st reqs).2) := by
  intro reqs
  induction reqs with
  | nil => intro st s0 hne _; exact absurd rfl hne
  | cons r rest ih =>
    intro st s0 _ hp
    obtain ⟨attr, hfind⟩ := Option.isSome_iff_exists.mp (hp r (List.mem_cons_self r rest))
    have hgw := generic_write_of_present st r.offset r.length r.handle r.value attr hfind
    by_cases h1 : (attr.value.length : Int) < r.offset
    · rw [if_pos h1] at hgw
      simp [execLoop, commitQueue, hgw]
    · rw [if_neg h1] at hgw
      by_cases h2 : r.offset + r.length > (attr.value.length : Int)
      · rw [if_pos h2] at hgw
        simp [execLoop, commitQueue, hgw]
      · rw [if_neg h2] at hgw
        have hpres2 : ∀ x ∈ rest,
            (get_attribute_from_handle (update_attribute_value
              (set_value_at_handle st r.handle
                (pySetSlice attr.value r.offset (r.offset + r.length) r.value))
              attr.uuid
              (pySetSlice attr.value r.offset (r.offset + r.length) r.value)) x.handle).isSome := by
          intro x hx
          rw [isSome_get_attribute_generic_write st r.offset r.length r.handle r.value
            _ _ _ hgw x.handle]
          exact hp x (List.mem_cons_of_mem r hx)
        cases rest with
        | nil => simp [execLoop, commitQueue, hgw]
        | cons r2 rest2 =>
          simp only [execLoop, commitQueue, hgw]
          exact ih _ (some .SUCCESS) (by simp) hpres2

/-- A failed `generic_read` always carries the empty value. -/
theorem generic_read_fail_value (st : ServerState) (offset handle : Int)
    (h : (generic_read st offset handle).1 ≠ .SUCCESS) :
    (generic_read st offset handle).2 = [] := by
  by_cases hc : offset < 0 ∨ ((get_attribute_value_from_handle st handle).length : Int) < offset
  · simp [generic_read, hc]
  · exact absurd (by simp [generic_read, hc]) h

/-- A small concrete store shared by the witnesses: one service (handle 1)
holding one characteristic (handle 2, value `[1, 2, 3, 4]`), empty queue. -/
def demoState : ServerState :=
  ⟨[⟨1, "svc", [], [⟨2, "chr", [1, 2, 3, 4], []⟩]⟩], []⟩

/-- C4: `generic_read(offset, handle)` returns `(INVALID_OFFSET, [])` exactly
when `offset < 0` or `offset` exceeds the length of the resolved value (an
absent handle resolving to the empty value), and otherwise returns `SUCCESS`
with the value slice from `offset` to the end. -/
theorem c4_generic_read_characterisation (st : ServerState) (handle offset : Int) :
    (generic_read st offset handle = (.INVALID_OFFSET, []) ↔
      (offset < 0 ∨ offset > ((get_attribute_value_from_handle st handle).length : Int))) ∧
    (¬(offset < 0 ∨ offset > ((get_attribute_value_from_handle st handle).length : Int)) →
      generic_read st offset handle =
        (.SUCCESS, (get_attribute_value_from_handle st handle).drop offset.toNat)) := by
  by_cases hc : offset < 0 ∨ ((get_attribute_value_from_handle st handle).length : Int) < offset
  · have hg : generic_read st offset handle = (.INVALID_OFFSET, []) := by
      simp [generic_read, hc]
    exact ⟨by rw [hg]; exact ⟨fun _ => hc, fun _ => rfl⟩, fun hn => absurd hc hn⟩
  · have hg : generic_read st offset handle =
        (.SUCCESS, (get_attribute_value_from_handle st handle).drop offset.toNat) := by
      simp [generic_read, hc]
    refine ⟨⟨fun h => ?_, fun h => absurd h hc⟩, fun _ => hg⟩
    rw [hg] at h
    exact absurd (congrArg Prod.fst h) (by simp)

/-- C4 witness: on the demo store, reading handle 2 at offset 1 succeeds with
the tail slice, and reading at offset `-1` fails `INVALID_OFFSET`. -/
theorem c4_witness :
    generic_read demoState 1 2 = (.SUCCESS, [2, 3, 4]) ∧
    generic_read demoState (-1) 2 = (.INVALID_OFFSET, []) := by
  constructor
  · have h := (c4_generic_read_characterisation demoState 2 1).2 (by decide)
    exact h.trans (by decide)
  · exact (c4_generic_read_characterisation demoState 2 (-1)).1.mpr (by decide)

set_option maxHeartbeats 1000000 in
/-- C6: the `check_permissions` table — `UNAUTHORIZED → INSUF_AUTHORIZATION`,
`INVALID_FOR_LE`/`INVALID_FOR_BR_EDR → INTERNAL_ERROR`,
`NO_READ → READ_NOT_PERMIT`, `NO_WRITE → WRITE_NOT_PERMIT`, the nine
remaining fixture UUIDs → `SUCCESS`, any unrecognised or null UUID →
`NOT_FOUND`; and an absent handle resolves to UUID `""`, which the check
maps to `NOT_FOUND`. -/
theorem c6_check_permissions_table :
    check_permissions none = .NOT_FOUND ∧
    check_permissions (some UNAUTHORIZED_CHAR_UUID) = .INSUF_AUTHORIZATION ∧
    check_permissions (some INVALID_FOR_LE_UUID) = .INTERNAL_ERROR ∧
    check_permissions (some INVALID_FOR_BR_EDR_UUID) = .INTERNAL_ERROR ∧
    check_permissions (some NO_READ_CHAR_UUID) = .READ_NOT_PERMIT ∧
    check_permissions (some NO_WRITE_CHAR_UUID) = .WRITE_NOT_PERMIT ∧
    (∀ u ∈ [LONG_CHAR_UUID, DESCRIPTOR_UUID, AUTHENTICATION_CHAR_UUID, SHORT_CHAR_UUID,
        WRITE_NO_RESPONSE_CHAR_UUID, AUTHENTICATE_SHORT_CHAR_UUID, CCC_DESCRIPTOR_UUID,
        LONG_CHAR_512_UUID, MITM_SHORT_CHAR_UUID],
      check_permissions (some u) = .SUCCESS) ∧
    (∀ u, u ∉ knownPermissionUUIDs → check_permissions (some u) = .NOT_FOUND) ∧
    (∀ (st : ServerState) (handle : Int), get_attribute_from_handle st handle = none →
      get_uuid_from_handle st handle = "" ∧
      check_permissions (some (get_uuid_from_handle st handle)) = .NOT_FOUND) := by
  refine ⟨by decide, by decide, by decide, by decide, by decide, by decide, by decide, ?_, ?_⟩
  · intro u hu
    simp only [knownPermissionUUIDs, List.mem_cons, List.not_mem_nil, or_false, not_or] at hu
    obtain ⟨n1, n2, n3, n4, n5, n6, n7, n8, n9, n10, n11, n12, n13, n14⟩ := hu
    simp only [check_permissions, n1, n2, n3, n4, n5, n6, n7, n8, n9, n10, n11, n12, n13,
      n14, if_false]
  · intro st handle h
    unfold get_uuid_from_handle
    rw [h]
    exact ⟨rfl, by decide⟩

/-- C6 witness: an unrecognised UUID maps to `NOT_FOUND`, and an absent
handle (empty store) resolves to UUID `""` which maps to `NOT_FOUND`. -/
theorem c6_witness :
    check_permissions (some "not-a-fixture-uuid") = .NOT_FOUND ∧
    get_uuid_from_handle ⟨[], []⟩ 1 = "" ∧
    check_permissions (some (get_uuid_from_handle ⟨[], []⟩ 1)) = .NOT_FOUND := by
  refine ⟨?_, ?_, ?_⟩
  · exact c6_check_permissions_table.2.2.2.2.2.2.2.1 "not-a-fixture-uuid" (by decide)
  · exact (c6_check_permissions_table.2.2.2.2.2.2.2.2 ⟨[], []⟩ 1 rfl).1
  · exact (c6_check_permissions_table.2.2.2.2.2.2.2.2 ⟨[], []⟩ 1 rfl).2

/-- C7: `on_attr_read` resolves the UUID and checks permissions; with
`is_long = false` the offset is forced to 0 before the read engine runs,
with `is_long = true` the offset is passed through; on permission failure
the original offset is echoed with the failing status and empty value; a
response is always produced, and any failing response carries the empty
value. -/
theorem c7_on_attr_read_dispatch (st : ServerState) (addr : String)
    (tid offset : Int) (is_long : Bool) (handle : Int) :
    (check_permissions (some (get_uuid_from_handle st handle)) = .SUCCESS →
      on_attr_read st addr tid offset false handle =
        (st, [⟨addr, tid, (generic_read st 0 handle).1, 0, (generic_read st 0 handle).2⟩])) ∧
    (check_permissions (some (get_uuid_from_handle st handle)) = .SUCCESS →
      on_attr_read st addr tid offset true handle =
        (st, [⟨addr, tid, (generic_read st offset handle).1, offset,
          (generic_read st offset handle).2⟩])) ∧
    (check_permissions (some (get_uuid_from_handle st handle)) ≠ .SUCCESS →
      on_attr_read st addr tid offset is_long handle =
        (st, [⟨addr, tid, check_permissions (some (get_uuid_from_handle st handle)),
          offset, []⟩])) ∧
    (∃ r, on_attr_read st addr tid offset is_long handle = (st, [r])) ∧
    (∀ r, on_attr_read st addr tid offset is_long handle = (st, [r]) →
      r.status ≠ .SUCCESS → r.value = []) := by
  by_cases hs : check_permissions (some (get_uuid_from_handle st handle)) = .SUCCESS
  · have ha : on_attr_read st addr tid offset false handle =
        (st, [⟨addr, tid, (generic_read st 0 handle).1, 0, (generic_read st 0 handle).2⟩]) := by
      simp [on_attr_read, hs]
    have hb : on_attr_read st addr tid offset true handle =
        (st, [⟨addr, tid, (generic_read st offset handle).1, offset,
          (generic_read st offset handle).2⟩]) := by
      simp [on_attr_read, hs]
    refine ⟨fun _ => ha, fun _ => hb, fun hn => absurd hs hn, ?_, ?_⟩
    · cases is_long with
      | false => exact ⟨_, ha⟩
      | true => exact ⟨_, hb⟩
    · intro r hr hstat
      cases is_long with
      | false =>
        rw [ha] at hr
        have h2 : ([(⟨addr, tid, (generic_read st 0 handle).1, 0,
            (generic_read st 0 handle).2⟩ : Response)]) = [r] := congrArg Prod.snd hr
        injection h2 with h3 _
        rw [← h3] at hstat ⊢
        exact generic_read_fail_value st 0 handle hstat
      | true =>
        rw [hb] at hr
        have h2 : ([(⟨addr, tid, (generic_read st offset handle).1, offset,
            (generic_read st offset handle).2⟩ : Response)]) = [r] := congrArg Prod.snd hr
        injection h2 with h3 _
        rw [← h3] at hstat ⊢
        exact generic_read_fail_value st offset handle hstat
  · have hc : on_attr_read st addr tid offset is_long handle =
        (st, [⟨addr, tid, check_permissions (some (get_uuid_from_handle st handle)),
          offset, []⟩]) := by
      simp [on_attr_read, hs]
    refine ⟨fun h => absurd h hs, fun h => absurd h hs, fun _ => hc, ⟨_, hc⟩, ?_⟩
    intro r hr _
    rw [hc] at hr
    have h2 : ([(⟨addr, tid, check_permissions (some (get_uuid_from_handle st handle)),
        offset, []⟩ : Response)]) = [r] := congrArg Prod.snd hr
    injection h2 with h3 _
    rw [← h3]

/-- C7 witness: on the empty store the permission check yields `NOT_FOUND`,
and the handler answers with that status, the original offset and an empty
value. -/
theorem c7_witness :
    on_attr_read ⟨[], []⟩ "AA" 7 5 false 1 =
      ((⟨[], []⟩ : ServerState), [⟨"AA", 7, .NOT_FOUND, 5, []⟩]) := by
  have h := (c7_on_attr_read_dispatch ⟨[], []⟩ "AA" 7 5 false 1).2.2.1 (by decide)
  exact h.trans (by decide)

/-- C8: `on_execute_write` with `exec_write = false` clears the queue
unconditionally, leaves every attribute value unchanged and responds
`SUCCESS` with offset 0 and empty value. -/
theorem c8_execute_write_cancel (st : ServerState) (addr : String) (tid : Int) :
    on_execute_write st addr tid false =
      .ok ((⟨st.gatt_services, []⟩ : ServerState), [⟨addr, tid, .SUCCESS, 0, []⟩]) ∧
    (∀ handle : Int, get_attribute_value_from_handle ⟨st.gatt_services, []⟩ handle =
      get_attribute_value_from_handle st handle) :=
  ⟨rfl, fun _ => rfl⟩

/-- C1 (amended): for a handle present in the store, `generic_write` fails
`INVALID_OFFSET` when the stored length is below the offset, otherwise fails
`INVALID_ATTRLEN` when `offset + length` exceeds the stored length, and only
otherwise proceeds and returns `SUCCESS`.  (For an absent handle the two
checks run against the empty value, but a write passing both raises
`AttributeError` instead of returning `SUCCESS` — see the counterexample.) -/
theorem c1_generic_write_bounds (st : ServerState) (offset length handle : Int)
    (value : List Nat) (attr : GattAttribute)
    (hfind : get_attribute_from_handle st handle = some attr) :
    ((attr.value.length : Int) < offset →
      generic_write st offset length handle value = .ok (.INVALID_OFFSET, [], st)) ∧
    (¬(attr.value.length : Int) < offset → offset + length > (attr.value.length : Int) →
      generic_write st offset length handle value = .ok (.INVALID_ATTRLEN, [], st)) ∧
    (¬(attr.value.length : Int) < offset → ¬offset + length > (attr.value.length : Int) →
      ∃ nv st2, generic_write st offset length handle value = .ok (.SUCCESS, nv, st2)) := by
  have hgw := generic_write_of_present st offset length handle value attr hfind
  refine ⟨fun h1 => ?_, fun h1 h2 => ?_, fun h1 h2 => ?_⟩
  · rw [hgw, if_pos h1]
  · rw [hgw, if_neg h1, if_pos h2]
  · rw [hgw, if_neg h1, if_neg h2]
    exact ⟨_, _, rfl⟩

/-- C1 counterexample: on an absent handle (empty store) with `offset = 0`,
`length = 0`, both bound checks pass against the empty value, yet the write
raises `AttributeError` (dereferencing the missing attribute's `uuid`)
rather than proceeding to `SUCCESS`. -/
theorem c1_counterexample :
    get_attribute_from_handle ⟨[], []⟩ 1 = none ∧
    ¬((([] : List Nat).length : Int) < 0) ∧
    ¬((0 : Int) + 0 > (([] : List Nat).length : Int)) ∧
    generic_write ⟨[], []⟩ 0 0 1 [] =
      .error "AttributeError: NoneType object has no uuid" :=
  ⟨rfl, by decide, by decide, rfl⟩

/-- C1 witness: on the demo store (stored length 4), offset 10 fails
`INVALID_OFFSET`; offset 2 with length 5 fails `INVALID_ATTRLEN`; offset 0
with length 2 succeeds. -/
theorem c1_witness :
    generic_write demoState 10 1 2 [9] = .ok (.INVALID_OFFSET, [], demoState) ∧
    generic_write demoState 2 5 2 [9, 9, 9, 9, 9] = .ok (.INVALID_ATTRLEN, [], demoState) ∧
    (∃ nv st2, generic_write demoState 0 2 2 [9, 9] = .ok (.SUCCESS, nv, st2)) :=
  ⟨(c1_generic_write_bounds demoState 10 1 2 [9] ⟨2, "chr", [1, 2, 3, 4]⟩ rfl).1 (by decide),
   (c1_generic_write_bounds demoState 2 5 2 [9, 9, 9, 9, 9] ⟨2, "chr", [1, 2, 3, 4]⟩ rfl).2.1
     (by decide) (by decide),
   (c1_generic_write_bounds demoState 0 2 2 [9, 9] ⟨2, "chr", [1, 2, 3, 4]⟩ rfl).2.2
     (by decide) (by decide)⟩

/-- C5 (amended): a `generic_write` that returns `SUCCESS` with a
non-negative offset and a data list whose length equals the declared
`length` parameter leaves the stored value at the written handle with its
length unchanged.  (When `len(value) ≠ length`, or when the offset is
negative, Python slice assignment can grow or shrink the stored value — see
the counterexample.) -/
theorem c5_success_preserves_length (st : ServerState) (offset length handle : Int)
    (value nv : List Nat) (st2 : ServerState)
    (hw : generic_write st offset length handle value = .ok (.SUCCESS, nv, st2))
    (ho : 0 ≤ offset) (hlen : length = (value.length : Int)) :
    (get_attribute_value_from_handle st2 handle).length =
      (get_attribute_value_from_handle st handle).length := by
  cases hfind : get_attribute_from_handle st handle with
  | none =>
    exfalso
    unfold generic_write at hw
    rw [hfind] at hw
    simp only at hw
    split at hw
    · simp at hw
    · split at hw
      · simp at hw
      · simp at hw
  | some attr =>
    have hval : get_attribute_value_from_handle st handle = attr.value := by
      unfold get_attribute_value_from_handle
      rw [hfind]
    have h2 := get_value_after_generic_write st offset length handle value nv st2 hw
    rw [h2, hval]
    have hgw := generic_write_of_present st offset length handle value attr hfind
    rw [hgw] at hw
    split_ifs at hw with hb1 hb2
    · simp at hw
    · simp at hw
    · injection hw with hw
      injection hw with hs hw
      injection hw with hnv hst
      rw [← hnv]
      exact pySetSlice_length_of_bounds attr.value value offset length ho hlen (by omega)

/-- C5 counterexample: both failure modes of the original claim.  A
successful write whose data is longer than the declared `length` grows the
stored value (offset 0, length 3, six data bytes: 4 → 7 bytes); and a
successful write at a negative offset with `len(value) = length` also grows
it (offset −3, length 4, four data bytes: 4 → 8 bytes). -/
theorem c5_counterexample :
    generic_write demoState 0 3 2 [9, 9, 9, 9, 9, 9] =
      .ok (.SUCCESS, [9, 9, 9, 9, 9, 9, 4],
        ⟨[⟨1, "svc", [], [⟨2, "chr", [9, 9, 9, 9, 9, 9, 4], []⟩]⟩], []⟩) ∧
    ([9, 9, 9, 9, 9, 9, 4] : List Nat).length ≠ ([1, 2, 3, 4] : List Nat).length ∧
    generic_write demoState (-3) 4 2 [8, 8, 8, 8] =
      .ok (.SUCCESS, [1, 8, 8, 8, 8, 2, 3, 4],
        ⟨[⟨1, "svc", [], [⟨2, "chr", [1, 8, 8, 8, 8, 2, 3, 4], []⟩]⟩], []⟩) ∧
    ([1, 8, 8, 8, 8, 2, 3, 4] : List Nat).length ≠ ([1, 2, 3, 4] : List Nat).length :=
  ⟨rfl, by decide, rfl, by decide⟩

/-- C5 witness: a length-preserving write on the demo store — offset 0,
length 2, two data bytes — keeps the stored length at 4. -/
theorem c5_witness :
    (get_attribute_value_from_handle
      ⟨[⟨1, "svc", [], [⟨2, "chr", [9, 9, 3, 4], []⟩]⟩], []⟩ 2).length =
    (get_attribute_value_from_handle demoState 2).length :=
  c5_success_preserves_length demoState 0 2 2 [9, 9] [9, 9, 3, 4]
    ⟨[⟨1, "svc", [], [⟨2, "chr", [9, 9, 3, 4], []⟩]⟩], []⟩ rfl (by decide) (by decide)

/-- C9: writing a value `V` of the stored value's length at offset 0 with
`length` equal to that stored length succeeds returning `V`, and a
subsequent `generic_read` from offset 0 returns exactly `V` with `SUCCESS`. -/
theorem c9_write_read_roundtrip (st : ServerState) (handle : Int)
    (attr : GattAttribute) (V : List Nat)
    (hfind : get_attribute_from_handle st handle = some attr)
    (hlen : V.length = attr.value.length) :
    ∃ st2, generic_write st 0 (attr.value.length : Int) handle V =
        .ok (.SUCCESS, V, st2) ∧
      generic_read st2 0 handle = (.SUCCESS, V) := by
  have hgw := generic_write_of_present st 0 (attr.value.length : Int) handle V attr hfind
  rw [if_neg (by omega), if_neg (by omega), pySetSlice_full attr.value V] at hgw
  refine ⟨_, hgw, ?_⟩
  have hval := get_value_after_generic_write st 0 (attr.value.length : Int) handle V V _ hgw
  simp only [generic_read, hval]
  have hc : ¬((0 : Int) < 0 ∨ ((V.length : Int) < (0 : Int))) := by omega
  rw [if_neg hc]
  simp

/-- C9 witness: on the demo store (stored value `[1,2,3,4]`), writing
`[4,3,2,1]` at offset 0 with length 4 and reading back returns `[4,3,2,1]`. -/
theorem c9_witness :
    ∃ st2, generic_write demoState 0 (4 : Int) 2 [4, 3, 2, 1] =
        .ok (.SUCCESS, [4, 3, 2, 1], st2) ∧
      generic_read st2 0 2 = (.SUCCESS, [4, 3, 2, 1]) :=
  c9_write_read_roundtrip demoState 2 ⟨2, "chr", [1, 2, 3, 4]⟩ [4, 3, 2, 1] rfl (by decide)

/-- A 48-byte fixture value (`LONG_TEST_VALUE` is 48 bytes of `0x07`) behind
the long characteristic. -/
def longCharState : ServerState :=
  ⟨[⟨5, "svc48", [], [⟨6, LONG_CHAR_UUID, List.replicate 48 7, []⟩]⟩], []⟩

/-- C10: `generic_write` does not validate negative offsets — with
`offset = -5`, `length = 3` against a 48-byte value both bound checks pass,
the write returns `SUCCESS` and splices the data at positions 43..45
(relative to the end of the buffer), while `generic_read` rejects the same
negative offset with `INVALID_OFFSET`. -/
theorem c10_negative_offset_write :
    ¬(((List.replicate 48 7 : List Nat).length : Int) < -5) ∧
    ¬((-5 : Int) + 3 > ((List.replicate 48 7 : List Nat).length : Int)) ∧
    generic_write longCharState (-5) 3 6 [1, 2, 3] =
      .ok (.SUCCESS, List.replicate 43 7 ++ [1, 2, 3] ++ List.replicate 2 7,
        ⟨[⟨5, "svc48", [], [⟨6, LONG_CHAR_UUID,
          List.replicate 43 7 ++ [1, 2, 3] ++ List.replicate 2 7, []⟩]⟩], []⟩) ∧
    generic_read longCharState (-5) 6 = (.INVALID_OFFSET, []) :=
  ⟨by decide, by decide, by rfl, by rfl⟩

/-- C2: committing a nonempty prepared-write queue (every queued handle
resolving, as `on_attr_write` guarantees) drains it in FIFO order through
`generic_write`, stopping at the first failing entry and leaving earlier
entries applied (no rollback) — i.e. it computes the spec-side drain
`commitQueue` — and responds with the final status at offset 0 with an
empty value. -/
theorem c2_execute_write_commit (st : ServerState) (addr : String) (tid : Int)
    (reqs : List WriteRequest) (hq : st.write_requests = reqs) (hne : reqs ≠ [])
    (hp : ∀ r ∈ reqs, (get_attribute_from_handle st r.handle).isSome) :
    on_execute_write st addr tid true =
      .ok ((commitQueue ⟨st.gatt_services, []⟩ reqs).2,
        [⟨addr, tid, (commitQueue ⟨st.gatt_services, []⟩ reqs).1, 0, []⟩]) := by
  have hl := execLoop_eq_commitQueue reqs ⟨st.gatt_services, []⟩ none hne
    (fun r hr => hp r hr)
  simp only [on_execute_write, Bool.not_true, Bool.false_eq_true, if_false, hq]
  rw [hl]

/-- The demo store with two queued prepared writes for handle 2: `E1`
(offset 0, length 2, data `[9,9]`, valid) then `E2` (offset 10, invalid
offset). -/
def prepQueueState : ServerState :=
  ⟨[⟨1, "svc", [], [⟨2, "chr", [1, 2, 3, 4], []⟩]⟩],
   [⟨"AA", 7, 0, 2, true, true, 2, [9, 9]⟩, ⟨"AA", 7, 10, 1, true, true, 2, [5]⟩]⟩

/-- C2 witness: committing `E1` (valid) then `E2` (invalid offset) applies
`E1`'s effect — observable on a subsequent read — and responds with `E2`'s
`INVALID_OFFSET` at offset 0 with empty value. -/
theorem c2_witness :
    on_execute_write prepQueueState "AA" 7 true =
      .ok ((⟨[⟨1, "svc", [], [⟨2, "chr", [9, 9, 3, 4], []⟩]⟩], []⟩ : ServerState),
        [⟨"AA", 7, .INVALID_OFFSET, 0, []⟩]) ∧
    generic_read ⟨[⟨1, "svc", [], [⟨2, "chr", [9, 9, 3, 4], []⟩]⟩], []⟩ 0 2 =
      (.SUCCESS, [9, 9, 3, 4]) := by
  have h := c2_execute_write_commit prepQueueState "AA" 7 prepQueueState.write_requests
    rfl (by decide) (by decide)
  exact ⟨h.trans (by rfl), by rfl⟩

/-- C3: the failing input.  A commit (`exec_write = true`) with an empty
prepared-write queue leaves the Python local `status` unassigned, so the
handler raises `UnboundLocalError` at the `SendResponse` call and sends no
response — contradicting the claim that every dispatcher entry point,
including an empty-queue commit, completes and sends exactly one response. -/
theorem c3_execute_write_empty_queue_bug :
    demoState.write_requests = [] ∧
    on_execute_write demoState "AA" 7 true =
      .error "UnboundLocalError: local variable status referenced before assignment" :=
  ⟨rfl, rfl⟩

end GattServer
